import Mathlib

/-!
Verification of the AutoPattern session / human-in-the-loop coordination layer
(`src/backend/automation`): a shallow embedding of `config.py`,
`automation_runner.py`, `chat.py`, `server.py` and `llm_client.py`, followed by
theorems about the embedded operations.
-/

namespace AutoPattern

/-- `Config` (config.py lines 16-34).  The dataclass declares exactly the
fields `google_api_key`, `llm_model`, `headless` (plus a path we do not need).
It has NO field named `enable_human_in_loop`; this absence is load-bearing for
`AutomationRunner.init` below. -/
structure Config where
  google_api_key : String
  llm_model : String
  headless : Bool
deriving Repr, DecidableEq

/-- Python exceptions that the embedded code can raise. -/
inductive PyError where
  | attributeError (msg : String)
  | typeError (msg : String)
  | valueError (msg : String)
  | importError (msg : String)
deriving Repr, DecidableEq

/-- The snapshot of settings held by an `AutomationRunner` instance
(automation_runner.py lines 49-52). -/
structure AutomationRunner where
  headless : Bool
  llm_model : String
  enable_human_in_loop : Bool
deriving Repr, DecidableEq

/-- Python `llm_model or config.llm_model` (automation_runner.py line 50):
`or` falls through on `None` and on the empty (falsy) string. -/
def pyOrString (v : Option String) (d : String) : String :=
  match v with
  | none => d
  | some s => if s = "" then d else s

/-- The message of the `AttributeError` raised when `config.enable_human_in_loop`
is evaluated (apostrophes of the CPython message elided). -/
def attr_error_msg : String :=
  "Config object has no attribute enable_human_in_loop"

/-- `AutomationRunner.__init__` (automation_runner.py lines 42-52).
`headless` defaults to `config.headless` and `llm_model` to
`config.llm_model`.  When the `enable_human_in_loop` argument is `None` the
source evaluates `config.enable_human_in_loop`, but `Config` (config.py)
declares no such attribute, so the constructor raises `AttributeError`. -/
def AutomationRunner.init (headless : Option Bool) (llm_model : Option String)
    (enable_human_in_loop : Option Bool) (cfg : Config) :
    Except PyError AutomationRunner :=
  match enable_human_in_loop with
  | some b =>
      Except.ok { headless := headless.getD cfg.headless,
                  llm_model := pyOrString llm_model cfg.llm_model,
                  enable_human_in_loop := b }
  | none => Except.error (PyError.attributeError attr_error_msg)

/-- The dict returned by `AutomationRunner.run_task`
(automation_runner.py lines 220-224 and 233-237). -/
structure RunResult where
  success : Bool
  error : Option String
  task : String
deriving Repr, DecidableEq

/-- Possible behaviours of the external agent-execution collaborator
(`agent.run()`, automation_runner.py line 211): it completes, raises an
ordinary exception with a message, or is cancelled (`asyncio.CancelledError`,
which is a `BaseException` and hence NOT caught by the `except Exception`
clause on line 225). -/
inductive AgentOutcome where
  | completes
  | raises (msg : String)
  | cancelled
deriving Repr, DecidableEq

/-- How an awaited coroutine/task finishes: with a value, by raising an
exception, or by `asyncio.CancelledError`. -/
inductive TaskOutcome (α : Type) where
  | ok (value : α)
  | exn (e : PyError)
  | cancelled
deriving Repr, DecidableEq

/-- `AutomationRunner.run_task` (automation_runner.py lines 121-237), as a
function of the runner snapshot, the `GOOGLE_API_KEY` environment variable at
run time, and the agent-execution collaborator's behaviour.  A missing key
raises `ValueError` (line 144) BEFORE the `try` block; the `try/except
Exception` around `agent.run()` (lines 201-237) converts an agent error into
the dict `success=False, error=str(e)` and converts completion into
`success=True`; cancellation propagates. -/
def AutomationRunner.run_task (_r : AutomationRunner) (task_description : String)
    (apiKey : Option String) (agent : AgentOutcome) : TaskOutcome RunResult :=
  match apiKey with
  | none => TaskOutcome.exn (PyError.valueError
      "GOOGLE_API_KEY environment variable is not set")
  | some _ =>
      match agent with
      | AgentOutcome.completes =>
          TaskOutcome.ok { success := true, error := none, task := task_description }
      | AgentOutcome.raises msg =>
          TaskOutcome.ok { success := false, error := some msg, task := task_description }
      | AgentOutcome.cancelled => TaskOutcome.cancelled

/-- `chat._run_task` (chat.py lines 182-191): acquires the shared browser and
then constructs `AutomationRunner(headless=_headless, llm_model=config.llm_model)`.
The `enable_human_in_loop` argument is omitted (i.e. `None`), so the
constructor raises `AttributeError` (see `AutomationRunner.init`).  Even were
construction to succeed, line 191 calls
`runner.run_task(task_description, sensitive_data=..., browser=browser)`,
passing a keyword `browser` that `run_task` (automation_runner.py line 121)
does not declare, which raises `TypeError` at the call.  Either way the
coroutine finishes by raising, never by returning a result dict. -/
def run_task_chat (headlessGlobal : Bool) (cfg : Config) : TaskOutcome RunResult :=
  match AutomationRunner.init (some headlessGlobal) (some cfg.llm_model) none cfg with
  | Except.error e => TaskOutcome.exn e
  | Except.ok _ =>
      TaskOutcome.exn (PyError.typeError
        "run_task got an unexpected keyword argument browser")

/-- One entry of the session history list `_history` (chat.py lines 380-385
and 393-398); the wall-clock `time` string is omitted. -/
structure HistoryEntry where
  task : String
  success : Bool
  cancelled : Bool
deriving Repr, DecidableEq

/-- The process SIGINT handler: the one saved on entry to `_execute_task`, or
the per-task `_cancel_handler` installed on chat.py line 376. -/
inductive SigintHandler where
  | original
  | cancelActiveTask
deriving Repr, DecidableEq

/-- The module-level mutable session state of chat.py that `_execute_task`
touches: `_history`, `_current_task` and the installed signal handler. -/
structure ChatState where
  history : List HistoryEntry
  current_task : Option String
  handler : SigintHandler
deriving Repr, DecidableEq

/-- `chat._execute_task` (chat.py lines 356-402).  It installs the per-task
SIGINT handler, awaits the task, and then:
on a returned result dict, appends one entry with that result's success flag
(lines 380-385); on `asyncio.CancelledError`, appends one cancelled entry
(lines 391-398); on any other exception nothing is appended and the exception
propagates to the caller.  The `finally` block (lines 400-402) always clears
`_current_task` and restores the saved handler.  The returned pair is the
state after `finally` together with the exception (if any) that propagates. -/
def execute_task (task_description : String) (outcome : TaskOutcome RunResult)
    (st : ChatState) : ChatState × Option PyError :=
  let saved := st.handler
  let running : ChatState :=
    { st with current_task := some task_description,
              handler := SigintHandler.cancelActiveTask }
  match outcome with
  | TaskOutcome.ok r =>
      ({ running with
          history := running.history ++
            [{ task := task_description, success := r.success, cancelled := false }],
          current_task := none, handler := saved }, none)
  | TaskOutcome.cancelled =>
      ({ running with
          history := running.history ++
            [{ task := task_description, success := false, cancelled := true }],
          current_task := none, handler := saved }, none)
  | TaskOutcome.exn e =>
      ({ running with current_task := none, handler := saved }, some e)

/-- A live browser instance together with the headless flag it was created
with (`Browser(headless=_headless)`, chat.py line 163).  `id` is ghost
bookkeeping distinguishing distinct creations. -/
structure BrowserHandle where
  id : Nat
  headless : Bool
deriving Repr, DecidableEq

/-- The module-level browser state of chat.py: the shared `_browser`
reference, the `_headless` flag, plus ghost bookkeeping: `nextId` numbers
creations, `live` lists the ids of created-and-not-yet-stopped browsers, and
`pendingClose` records that a `_close_browser()` task has been scheduled on
the event loop (chat.py line 246) and has not yet run. -/
structure BrowserState where
  browser : Option BrowserHandle
  headless : Bool
  nextId : Nat
  live : List Nat
  pendingClose : Bool
deriving Repr, DecidableEq

/-- The state at session start: `_browser = None`, `_headless = config.headless`
(chat.py lines 63-66). -/
def initBrowserState (cfgHeadless : Bool) : BrowserState :=
  { browser := none, headless := cfgHeadless, nextId := 0,
    live := [], pendingClose := false }

/-- `chat._get_browser` (chat.py lines 158-164): lazily create the shared
browser with the current `_headless` flag, otherwise return the existing
reference unchanged. -/
def get_browser (s : BrowserState) : BrowserHandle × BrowserState :=
  match s.browser with
  | some h => (h, s)
  | none =>
      let h : BrowserHandle := { id := s.nextId, headless := s.headless }
      (h, { s with browser := some h, nextId := s.nextId + 1,
                   live := s.live ++ [h.id] })

/-- `chat._close_browser` (chat.py lines 167-175): best-effort stop (a failure
of `stop()` is swallowed; in the model the handle is removed from `live`
either way, since the reference is nulled out regardless) and `_browser` is
set to `None`.  Idempotent when no browser exists. -/
def close_browser (s : BrowserState) : BrowserState :=
  match s.browser with
  | some h => { s with browser := none, live := s.live.erase h.id,
                       pendingClose := false }
  | none => { s with pendingClose := false }

/-- Argument parsing of `/headless` (chat.py lines 232-239). -/
def parse_headless_arg (val : String) : Option Bool :=
  if val = "on" ∨ val = "true" ∨ val = "1" ∨ val = "yes" then some true
  else if val = "off" ∨ val = "false" ∨ val = "0" ∨ val = "no" then some false
  else none

/-- `chat._cmd_headless` (chat.py lines 225-248): on a recognised value it
sets `_headless` (and `config.headless`), and if a browser is live it
schedules `_close_browser()` on the event loop; the scheduled close runs at
the next suspension point of the single-threaded loop (the REPL awaits the
next input line in an executor before any further `_get_browser`), modelled by
an explicit `close_browser` step. An unrecognised value changes nothing. -/
def cmd_headless (val : String) (s : BrowserState) : BrowserState :=
  match parse_headless_arg val with
  | none => s
  | some b =>
      { s with headless := b,
               pendingClose := s.pendingClose || s.browser.isSome }

/-- The browser-manager invariant: the ghost `live` list matches the shared
reference (exactly the referenced browser is unstopped), and created ids are
below `nextId`. -/
def BrowserInv (s : BrowserState) : Prop :=
  match s.browser with
  | some h => s.live = [h.id] ∧ h.id < s.nextId
  | none => s.live = []

/-- States reachable from session start through the three operations that
touch the shared browser reference. -/
inductive BrowserReachable (cfgHeadless : Bool) : BrowserState → Prop where
  | init : BrowserReachable cfgHeadless (initBrowserState cfgHeadless)
  | get {s} : BrowserReachable cfgHeadless s →
      BrowserReachable cfgHeadless (get_browser s).2
  | cmd {s} (val : String) : BrowserReachable cfgHeadless s →
      BrowserReachable cfgHeadless (cmd_headless val s)
  | close {s} : BrowserReachable cfgHeadless s →
      BrowserReachable cfgHeadless (close_browser s)

/-- The `ActionResult` returned by the `ask_human` tool
(automation_runner.py lines 97-99): only its `extracted_content` matters. -/
structure ActionResult where
  extracted_content : String
deriving Repr, DecidableEq

/-- Which transport `ask_human` used: the provided WebSocket callback, or the
console fallback where `input()` is run through `loop.run_in_executor` so the
event loop is not blocked (automation_runner.py lines 93-95). -/
inductive HumanInputRoute where
  | websocketCallback
  | consoleViaExecutor
deriving Repr, DecidableEq

/-- The `ask_human` tool action (automation_runner.py lines 73-99), as a
function of the optional `human_input_callback`, the question, and the line
the operator would type at the console prompt.  With a callback it awaits it;
without one it falls back to the console read off the event loop.  Either way
the answer is wrapped into the `ActionResult` content prefixed with
`Human responded: ` (line 98). -/
def ask_human (callback : Option (String → String)) (question : String)
    (consoleTyped : String) : HumanInputRoute × ActionResult :=
  match callback with
  | some cb =>
      (HumanInputRoute.websocketCallback,
       { extracted_content := "Human responded: " ++ cb question })
  | none =>
      (HumanInputRoute.consoleViaExecutor,
       { extracted_content := "Human responded: " ++ consoleTyped })

/-- The sentinel answer a timed-out human question degrades to. -/
def NO_RESPONSE_PLACEHOLDER : String := "[No response from human]"

/-- Modelled from the spec: `PendingQuestionRegistry.await_answer`
(spec sections 4.1 and 8).  The networked human-input channel that registers
pending questions with a per-question timeout is part of this repository but
is not under `src/`; only its hook (`human_input_callback`,
automation_runner.py line 47) appears there.  Per the spec, the caller
suspends until the first `resolve` for its question id, or until `timeout`
elapses, in which case the call resolves — at exactly the timeout, not
failing and not suspending indefinitely — to the sentinel no-response
placeholder.  `resolutions` lists the `resolve` calls for this question id in
time order, and the result pairs the resolution time with the answer. -/
def await_answer (resolutions : List (Nat × String)) (timeout : Nat) :
    Nat × String :=
  match resolutions with
  | [] => (timeout, NO_RESPONSE_PLACEHOLDER)
  | (t, ans) :: _ =>
      if t < timeout then (t, ans) else (timeout, NO_RESPONSE_PLACEHOLDER)

/-- The task-description suffix appended in human-in-loop mode
(automation_runner.py lines 110-118; apostrophes written as escapes). -/
def HUMAN_LOOP_TASK_SUFFIX : String :=
  "\n\nIMPORTANT INSTRUCTIONS FOR THIS TASK:\n- When you encounter login forms, username fields, email fields, password fields, 2FA/OTP inputs, or authenticator code fields, you MUST use the \x27ask_human\x27 tool to get the values from the human operator.\n- Do NOT skip or guess any credential fields.\n- Do NOT try to bypass authentication.\n- For each sensitive field, ask the human specifically what value to enter.\n- Wait for the human response before proceeding.\n"

/-- `_enhance_task_for_human_loop` (automation_runner.py lines 105-119). -/
def enhance_task_for_human_loop (r : AutomationRunner) (td : String) : String :=
  if r.enable_human_in_loop then td ++ HUMAN_LOOP_TASK_SUFFIX else td

/-- The credential instructions appended when sensitive data is provided
(automation_runner.py lines 173-178); the f-string braces around the key are
rendered by concatenation. -/
def credential_instructions (keys : List String) : String :=
  "\n\nIMPORTANT: User has provided the following credentials to use:\n" ++
  String.join (keys.map fun k =>
    "- " ++ k ++ ": Use the value referenced as <secret>" ++ k ++ "</secret>\n") ++
  "\nUse these values when filling in the corresponding form fields."

/-- The parameters with which `run_task` invokes the agent-execution
collaborator (automation_runner.py lines 150-199). -/
structure AgentInvocation where
  task : String
  model : String
  page_extraction_model : String
  headless : Bool
  tools_have_ask_human : Bool
  extend_system_message : Bool
deriving Repr, DecidableEq

/-- The agent invocation that `run_task` builds (automation_runner.py lines
141-199).  `ambient` is the process-wide `config` as it stands WHILE the task
runs: the body of `run_task` reads only the snapshot fields `self.headless`,
`self.llm_model` and `self.enable_human_in_loop` taken at construction and
never the module-level `config`, so `ambient` does not occur on the
right-hand side.  The task text is enhanced per lines 161-178; the
human-in-loop system prompt is attached only when the snapshot flag is set
and no sensitive data was supplied (lines 168-170); tools contain the
`ask_human` action exactly when the snapshot flag is set (lines 59-103). -/
def run_invocation (r : AutomationRunner) (td : String)
    (sensitive_keys : List String) (_ambient : Config) : AgentInvocation :=
  let enhanced :=
    if sensitive_keys.isEmpty then enhance_task_for_human_loop r td else td
  let enhanced :=
    if sensitive_keys.isEmpty then enhanced
    else enhanced ++ credential_instructions sensitive_keys
  { task := enhanced,
    model := r.llm_model,
    page_extraction_model := "gemini-flash-lite-latest",
    headless := r.headless,
    tools_have_ask_human := r.enable_human_in_loop,
    extend_system_message := r.enable_human_in_loop && sensitive_keys.isEmpty }

/-- Behaviour of the language-generation collaborator: plain text content, a
list of content parts, or a raised exception. -/
inductive LLMResponse where
  | text (content : String)
  | parts (contents : List String)
  | raises (msg : String)
deriving Repr, DecidableEq

/-- `LLMClient._generate` (llm_client.py lines 134-151): on success the
content (list parts joined by spaces) is stripped and returned; on ANY
exception the function returns the fallback string built from the first 200
characters of the prompt — it never re-raises. -/
def LLMClient.generate (prompt : String) (resp : LLMResponse) : String :=
  match resp with
  | LLMResponse.text c => c.trim
  | LLMResponse.parts cs => (String.intercalate " " cs).trim
  | LLMResponse.raises _ =>
      "Perform the task based on: " ++ (prompt.take 200) ++ "..."

/-- The user prompt built by `generate_task_description`
(llm_client.py lines 109-116) from the workflow's start URL and summary. -/
def workflow_user_prompt (start_url summary : String) : String :=
  "Here is a recorded browser workflow:\n\nStarting URL: " ++ start_url ++
  "\n\nActions performed:\n" ++ summary ++
  "\n\nGenerate a task description for an AI browser agent to replicate this workflow."

/-- `LLMClient.generate_task_description` (llm_client.py lines 106-118):
builds the user prompt from the workflow and delegates to `_generate`. -/
def generate_task_description (start_url summary : String)
    (resp : LLMResponse) : String :=
  LLMClient.generate (workflow_user_prompt start_url summary) resp

/-- The headless flag handed to the runner by `automate_workflow`
(server.py line 285): `request.headless if request.headless else
runtime_settings.headless`. -/
def automate_workflow_headless (requestHeadless runtimeHeadless : Bool) : Bool :=
  if requestHeadless then requestHeadless else runtimeHeadless

/-- The headless flag computed by `automate_task` (server.py line 310), with
the same conditional expression. -/
def automate_task_effective_headless (requestHeadless runtimeHeadless : Bool) : Bool :=
  if requestHeadless then requestHeadless else runtimeHeadless

/-- Python strings are modelled as character lists so that `strip` and
`startswith` admit proofs. -/
abbrev PyStr := List Char

/-- Python `str.strip()`: drop whitespace from both ends. -/
def pyStrip (l : PyStr) : PyStr :=
  ((l.dropWhile Char.isWhitespace).reverse.dropWhile Char.isWhitespace).reverse

/-- The marker `_save_key_to_dotenv` looks for (chat.py line 124). -/
def keyMarker : PyStr := "GOOGLE_API_KEY=".toList

/-- `line.strip().startswith("GOOGLE_API_KEY=")` (chat.py line 124). -/
def is_key_line (l : PyStr) : Bool := keyMarker.isPrefixOf (pyStrip l)

/-- The replacement line `GOOGLE_API_KEY="<key>"` written by
`_save_key_to_dotenv` (chat.py lines 125 and 131; the trailing newline of the
file representation is omitted, as for all lines here). -/
def new_key_line (key : PyStr) : PyStr := keyMarker ++ ('"' :: (key ++ ['"']))

/-- The read loop of `_save_key_to_dotenv` (chat.py lines 121-128): each line
whose stripped form starts with the marker is replaced by the new key line
(setting `replaced`), every other line is kept verbatim in order. -/
def rewrite_key_lines (key : PyStr) : List PyStr → List PyStr × Bool
  | [] => ([], false)
  | l :: ls =>
      let (rest, rep) := rewrite_key_lines key ls
      if is_key_line l then (new_key_line key :: rest, true)
      else (l :: rest, rep)

/-- `chat._save_key_to_dotenv` (chat.py lines 115-134): `existing = none`
models the `.env` file not existing (nothing is read); otherwise the lines
are rewritten by `rewrite_key_lines`, and if no line matched, one new key
line is appended at the end.  The result is the full list of lines written
back. -/
def save_key_to_dotenv (key : PyStr) (existing : Option (List PyStr)) :
    List PyStr :=
  match existing with
  | none => [new_key_line key]
  | some ls =>
      let (lines, replaced) := rewrite_key_lines key ls
      if replaced then lines else lines ++ [new_key_line key]

/-- A concrete configuration used for concrete evaluations. -/
def cfg0 : Config :=
  { google_api_key := "k", llm_model := "gemini-flash-latest", headless := false }

/-- The chat session state right after startup. -/
def chatState0 : ChatState :=
  { history := [], current_task := none, handler := SigintHandler.original }

/-- A concrete browser state with one live browser, as after a first
acquisition from startup: used to instantiate the manager theorems. -/
def browserWitnessState : BrowserState :=
  { browser := some { id := 0, headless := false }, headless := false,
    nextId := 1, live := [0], pendingClose := false }

/-! ## Helper lemmas -/

theorem browserInv_init (b : Bool) : BrowserInv (initBrowserState b) := by
  simp [BrowserInv, initBrowserState]

theorem browserInv_get {s : BrowserState} (h : BrowserInv s) :
    BrowserInv (get_browser s).2 := by
  cases hb : s.browser with
  | some hd => simpa [get_browser, hb] using h
  | none =>
      have hl : s.live = [] := by simpa [BrowserInv, hb] using h
      simp [get_browser, hb, BrowserInv, hl]

theorem browserInv_cmd (val : String) {s : BrowserState} (h : BrowserInv s) :
    BrowserInv (cmd_headless val s) := by
  rcases hp : parse_headless_arg val with _ | b
  · simpa [cmd_headless, hp] using h
  · cases hb : s.browser with
    | some hd =>
        have h2 := h
        simp [BrowserInv, hb] at h2
        simp [cmd_headless, hp, BrowserInv, hb]
        exact h2
    | none =>
        have h2 := h
        simp [BrowserInv, hb] at h2
        simp [cmd_headless, hp, BrowserInv, hb, h2]

theorem browserInv_close {s : BrowserState} (h : BrowserInv s) :
    BrowserInv (close_browser s) := by
  cases hb : s.browser with
  | some hd =>
      have h2 := h
      simp [BrowserInv, hb] at h2
      simp [close_browser, hb, BrowserInv, h2.1]
  | none =>
      have h2 := h
      simp [BrowserInv, hb] at h2
      simp [close_browser, hb, BrowserInv, h2]

theorem browserInv_reachable {c : Bool} {s : BrowserState}
    (h : BrowserReachable c s) : BrowserInv s := by
  induction h with
  | init => exact browserInv_init c
  | get _ ih => exact browserInv_get ih
  | cmd val _ ih => exact browserInv_cmd val ih
  | close _ ih => exact browserInv_close ih

theorem browserInv_live_le_one {s : BrowserState} (h : BrowserInv s) :
    s.live.length ≤ 1 := by
  cases hb : s.browser with
  | some hd =>
      have h2 := h
      simp [BrowserInv, hb] at h2
      simp [h2.1]
  | none =>
      have h2 := h
      simp [BrowserInv, hb] at h2
      simp [h2]

theorem isPrefixOf_append_self (p rest : PyStr) :
    p.isPrefixOf (p ++ rest) = true := by
  induction p with
  | nil => simp [List.isPrefixOf]
  | cons a as ih => simp [List.isPrefixOf, ih]

theorem pyStrip_new_key_line (key : PyStr) :
    pyStrip (new_key_line key) = new_key_line key := by
  have hG : Char.isWhitespace 'G' = false := by decide
  have hQ : Char.isWhitespace '"' = false := by decide
  have h1 : List.dropWhile Char.isWhitespace (new_key_line key) = new_key_line key := by
    simp [new_key_line, keyMarker, List.dropWhile_cons, hG]
  have h2 : (new_key_line key).reverse
      = '"' :: ((key.reverse ++ ['"']) ++ keyMarker.reverse) := by
    simp [new_key_line]
  unfold pyStrip
  rw [h1, h2, List.dropWhile_cons]
  simp [hQ, new_key_line]

theorem is_key_line_new (key : PyStr) : is_key_line (new_key_line key) = true := by
  unfold is_key_line
  rw [pyStrip_new_key_line]
  unfold new_key_line
  exact isPrefixOf_append_self _ _

theorem rewrite_key_lines_eq (key : PyStr) (ls : List PyStr) :
    rewrite_key_lines key ls =
      (ls.map (fun l => if is_key_line l then new_key_line key else l),
       ls.any is_key_line) := by
  induction ls with
  | nil => rfl
  | cons a as ih =>
      cases h : is_key_line a <;> simp [rewrite_key_lines, ih, h]

theorem filter_rewrite_map (key : PyStr) (ls : List PyStr) :
    ((ls.map (fun l => if is_key_line l then new_key_line key else l)).filter
        (fun l => !(is_key_line l)))
      = ls.filter (fun l => !(is_key_line l)) := by
  induction ls with
  | nil => rfl
  | cons a as ih =>
      cases h : is_key_line a <;>
        simp [h, ih, is_key_line_new, List.filter_cons]

theorem map_id_of_no_key_line {key : PyStr} {ls : List PyStr}
    (h : ls.any is_key_line = false) :
    ls.map (fun l => if is_key_line l then new_key_line key else l) = ls := by
  induction ls with
  | nil => rfl
  | cons a as ih =>
      simp [List.any_cons] at h
      have has : as.any is_key_line = false := by
        simp [List.any_eq_false]
        exact h.2
      simp [h.1, ih has]

/-! ## Claim theorems -/

/-- C1: An error raised by the agent-execution unit during execution is
captured by `run_task` and reported as a result with `success = false`
carrying the error message (first conjunct) — but the claim's guarantee that
no exception propagates uncaught out of a submission is violated by the code:
an interactive submission (`_execute_task` → `_run_task`) constructs
`AutomationRunner` without `enable_human_in_loop`, which raises
`AttributeError` because `Config` declares no such field (and the call would
pass an undeclared `browser` keyword besides); the exception escapes
`_execute_task` uncaught (second and third conjuncts evaluate the code at
that failing input). -/
theorem C1_execution_error_containment :
    (∀ (r : AutomationRunner) (td key msg : String),
        AutomationRunner.run_task r td (some key) (AgentOutcome.raises msg)
          = TaskOutcome.ok { success := false, error := some msg, task := td })
    ∧ (run_task_chat false cfg0
          = TaskOutcome.exn (PyError.attributeError attr_error_msg))
    ∧ ((execute_task "A" (run_task_chat false cfg0) chatState0).2
          = some (PyError.attributeError attr_error_msg)) := by
  refine ⟨fun r td key msg => rfl, ?_, ?_⟩
  · rfl
  · rfl

/-- C2 counterexample: the claim says every exit path of a submission appends
exactly one history entry; but on the exit path where the awaited task raises
(here: the very exception an interactive submission produces), zero entries
are appended — the exception propagates and the outcome is dropped from the
history. -/
theorem C2_exit_path_cleanup_counterexample :
    ¬ ((execute_task "A" (run_task_chat false cfg0) chatState0).1.history.length = 1)
    ∧ (execute_task "A" (run_task_chat false cfg0) chatState0).1.history = []
    ∧ (execute_task "A" (run_task_chat false cfg0) chatState0).2
        = some (PyError.attributeError attr_error_msg) := by
  refine ⟨?_, rfl, rfl⟩
  intro h
  simp [execute_task, run_task_chat, AutomationRunner.init, cfg0, chatState0] at h

/-- C2 amended: on normal completion and on cancellation `_execute_task`
appends exactly one history entry and raises nothing; the per-task SIGINT
trigger is uninstalled (the saved handler restored) and the active-task slot
cleared on EVERY exit path, including an escaping error — but on that
escaping-error path no history entry is appended and the exception
propagates to the caller. -/
theorem C2_exit_path_cleanup_amended :
    ∀ (td : String) (o : TaskOutcome RunResult) (st : ChatState),
      ((execute_task td o st).1.current_task = none)
      ∧ ((execute_task td o st).1.handler = st.handler)
      ∧ (match o with
         | TaskOutcome.ok r =>
             (execute_task td o st).1.history
               = st.history ++ [{ task := td, success := r.success, cancelled := false }]
             ∧ (execute_task td o st).2 = none
         | TaskOutcome.cancelled =>
             (execute_task td o st).1.history
               = st.history ++ [{ task := td, success := false, cancelled := true }]
             ∧ (execute_task td o st).2 = none
         | TaskOutcome.exn e =>
             (execute_task td o st).1.history = st.history
             ∧ (execute_task td o st).2 = some e) := by
  intro td o st
  cases o <;> simp [execute_task]

/-- C3: a human-input question that is registered and never answered resolves
to the sentinel no-response placeholder at exactly the configured timeout
(first conjunct), and no call resolves later than the timeout (second
conjunct) — the call degrades instead of failing or suspending forever. -/
theorem C3_question_timeout_placeholder :
    (∀ timeout : Nat, await_answer [] timeout = (timeout, NO_RESPONSE_PLACEHOLDER))
    ∧ (∀ (resolutions : List (Nat × String)) (timeout : Nat),
        (await_answer resolutions timeout).1 ≤ timeout) := by
  refine ⟨fun timeout => rfl, ?_⟩
  intro resolutions timeout
  match resolutions with
  | [] => simp [await_answer]
  | (t, ans) :: rest =>
      simp only [await_answer]
      split
      · exact Nat.le_of_lt (by assumption)
      · exact Nat.le_refl timeout

/-- C4: when the awaited task ends in cancellation, `_execute_task` appends
exactly one history entry marked `cancelled = true, success = false`, raises
nothing, clears the active-task slot and restores the saved SIGINT handler —
and a submission performed immediately afterwards proceeds and records its
own entry right after the cancelled one. -/
theorem C4_cancel_appends_one_entry_and_frees_session :
    ∀ (td : String) (st : ChatState),
      ((execute_task td TaskOutcome.cancelled st).1.history
          = st.history ++ [{ task := td, success := false, cancelled := true }])
      ∧ ((execute_task td TaskOutcome.cancelled st).2 = none)
      ∧ ((execute_task td TaskOutcome.cancelled st).1.current_task = none)
      ∧ ((execute_task td TaskOutcome.cancelled st).1.handler = st.handler)
      ∧ (∀ (td2 : String) (r : RunResult),
          (execute_task td2 (TaskOutcome.ok r)
              (execute_task td TaskOutcome.cancelled st).1).1.history
            = st.history ++ [{ task := td, success := false, cancelled := true },
                             { task := td2, success := r.success, cancelled := false }]) := by
  intro td st
  refine ⟨rfl, rfl, rfl, rfl, ?_⟩
  intro td2 r
  simp [execute_task]

/-- C5: (i) two consecutive acquisitions of the shared browser return the
same handle and the second changes nothing (no new creation); (ii) after a
`/headless` command with a recognised value and the close it schedules (which
the event loop runs before the next acquisition), the next acquisition
returns a fresh handle carrying the new flag, and the old handle was already
closed — the live set is empty — before that creation; (iii) in every
reachable state at most one created browser is unstopped, so two live
handles never coexist. -/
theorem C5_browser_single_handle :
    (∀ s : BrowserState,
        get_browser (get_browser s).2 = ((get_browser s).1, (get_browser s).2))
    ∧ (∀ (s : BrowserState) (h : BrowserHandle) (val : String) (b : Bool),
        BrowserInv s → s.browser = some h → parse_headless_arg val = some b →
          ((get_browser (close_browser (cmd_headless val s))).1.headless = b
            ∧ (get_browser (close_browser (cmd_headless val s))).1.id ≠ h.id
            ∧ (close_browser (cmd_headless val s)).live = []
            ∧ (close_browser (cmd_headless val s)).browser = none))
    ∧ (∀ (c : Bool) (s : BrowserState), BrowserReachable c s → s.live.length ≤ 1) := by
  refine ⟨?_, ?_, ?_⟩
  · intro s
    cases hb : s.browser <;> simp [get_browser, hb]
  · intro s h val b hInv hb hp
    have hpair : s.live = [h.id] ∧ h.id < s.nextId := by
      simpa [BrowserInv, hb] using hInv
    have hcmd : cmd_headless val s
        = { s with headless := b, pendingClose := s.pendingClose || s.browser.isSome } := by
      simp [cmd_headless, hp]
    have hclose : close_browser (cmd_headless val s)
        = { s with headless := b, browser := none, live := [], pendingClose := false } := by
      rw [hcmd]
      simp [close_browser, hb, hpair.1]
    rw [hclose]
    refine ⟨by simp [get_browser], ?_, rfl, rfl⟩
    simp [get_browser]
    omega
  · intro c s h
    exact browserInv_live_le_one (browserInv_reachable h)

/-- C5 witness: a concrete run — one browser live (id 0, headful), the
operator issues `/headless on`, the scheduled close runs, and the next
acquisition returns a fresh headless handle while the old one is closed;
the startup state has at most one live browser. -/
theorem C5_browser_single_handle_witness :
    ((get_browser (close_browser (cmd_headless "on" browserWitnessState))).1.headless = true)
    ∧ ((get_browser (close_browser (cmd_headless "on" browserWitnessState))).1.id ≠ 0)
    ∧ ((close_browser (cmd_headless "on" browserWitnessState)).live = [])
    ∧ ((close_browser (cmd_headless "on" browserWitnessState)).browser = none)
    ∧ ((get_browser (get_browser browserWitnessState).2)
        = ((get_browser browserWitnessState).1, (get_browser browserWitnessState).2))
    ∧ ((initBrowserState false).live.length ≤ 1) := by
  have h := C5_browser_single_handle
  have h2 := h.2.1 browserWitnessState { id := 0, headless := false } "on" true
    (by simp [BrowserInv, browserWitnessState]) (by rfl) (by decide)
  exact ⟨h2.1, h2.2.1, h2.2.2.1, h2.2.2.2, h.1 browserWitnessState,
         h.2.2 false _ (BrowserReachable.init)⟩

/-- C6: with no human-input callback attached, `ask_human` takes the console
route — `input()` run through `loop.run_in_executor`, off the event loop —
and the value typed at the console comes back to the suspended call as the
answer inside the returned `ActionResult` (wrapped in the source's
`Human responded: ` prefix). -/
theorem C6_console_fallback_returns_typed_value :
    ∀ (question typed : String),
      ask_human none question typed
        = (HumanInputRoute.consoleViaExecutor,
           { extracted_content := "Human responded: " ++ typed }) := by
  intro question typed
  rfl

/-- C7: the agent invocation a task runs with is a function of the runner
snapshot only — for any two states of the process-wide configuration while
the task runs, the invocation is identical (so a mutation mid-run cannot
change the running task's behaviour) — and a runner constructed after the
mutation, with defaulted arguments, picks up the mutated configuration's
model name and headless flag, i.e. the mutation is visible to the next task. -/
theorem C7_snapshot_isolation :
    (∀ (r : AutomationRunner) (td : String) (ks : List String) (c1 c2 : Config),
        run_invocation r td ks c1 = run_invocation r td ks c2)
    ∧ (∀ (c : Config) (b : Bool),
        AutomationRunner.init none none (some b) c
          = Except.ok { headless := c.headless, llm_model := c.llm_model,
                        enable_human_in_loop := b }) := by
  exact ⟨fun r td ks c1 c2 => rfl, fun c b => rfl⟩

/-- C8: when the language-generation collaborator raises during
task-description generation, `generate_task_description` returns the safe
fallback string built from the first 200 characters of the prompt it sent —
the function is total in the collaborator's behaviour, so no collaborator
exception reaches its caller. -/
theorem C8_generation_failure_fallback :
    ∀ (start_url summary msg : String),
      generate_task_description start_url summary (LLMResponse.raises msg)
        = "Perform the task based on: "
            ++ (workflow_user_prompt start_url summary).take 200 ++ "..." := by
  intro start_url summary msg
  rfl

/-- C9: at both run-task endpoints the request's headless flag takes effect
only when it is `true`: a request with `headless = false` runs with the
runtime settings' flag (in particular it cannot override a runtime setting of
`true`), while `headless = true` always takes effect. -/
theorem C9_request_headless_only_overrides_when_true :
    (∀ rt : Bool, automate_workflow_headless false rt = rt
        ∧ automate_task_effective_headless false rt = rt)
    ∧ (automate_workflow_headless false true = true
        ∧ automate_task_effective_headless false true = true)
    ∧ (∀ rt : Bool, automate_workflow_headless true rt = true
        ∧ automate_task_effective_headless true rt = true) := by
  refine ⟨fun rt => ⟨rfl, rfl⟩, ⟨rfl, rfl⟩, fun rt => ⟨rfl, rfl⟩⟩

/-- C10: saving the API key to `.env` (i) preserves, in order, every line
that does not set `GOOGLE_API_KEY`; (ii) every `GOOGLE_API_KEY` line of the
written file is exactly the new key line; (iii) the new key line is always
present in the written file; (iv) when no `GOOGLE_API_KEY` line existed, the
file is the old lines with one new key line appended; (v) when the file did
not exist, the written file is the single new key line. -/
theorem C10_dotenv_rewrite :
    ∀ (key : PyStr) (ls : List PyStr),
      ((save_key_to_dotenv key (some ls)).filter (fun l => !(is_key_line l))
          = ls.filter (fun l => !(is_key_line l)))
      ∧ ((save_key_to_dotenv key (some ls)).all
            (fun l => !(is_key_line l) || (l == new_key_line key)) = true)
      ∧ (new_key_line key ∈ save_key_to_dotenv key (some ls))
      ∧ (ls.any is_key_line = false →
          save_key_to_dotenv key (some ls) = ls ++ [new_key_line key])
      ∧ (save_key_to_dotenv key none = [new_key_line key]) := by
  intro key ls
  have hmem : ∀ l ∈ ls.map (fun x => if is_key_line x then new_key_line key else x),
      is_key_line l = false ∨ l = new_key_line key := by
    intro l hl
    rcases List.mem_map.mp hl with ⟨a, _, rfl⟩
    cases h : is_key_line a <;> simp [h]
  cases hany : ls.any is_key_line with
  | false =>
      have hs : save_key_to_dotenv key (some ls)
          = ls.map (fun x => if is_key_line x then new_key_line key else x)
            ++ [new_key_line key] := by
        simp [save_key_to_dotenv, rewrite_key_lines_eq, hany]
      have hid : ls.map (fun x => if is_key_line x then new_key_line key else x) = ls :=
        map_id_of_no_key_line hany
      refine ⟨?_, ?_, ?_, ?_, rfl⟩
      · rw [hs, List.filter_append, filter_rewrite_map]
        simp [is_key_line_new]
      · rw [hs]
        simp only [List.all_eq_true]
        intro l hl
        rcases List.mem_append.mp hl with hl2 | hl2
        · rcases hmem l hl2 with h | h
          · simp [h]
          · rw [h]; simp [is_key_line_new]
        · rw [List.mem_singleton.mp hl2]
          simp [is_key_line_new]
      · rw [hs]
        exact List.mem_append_right _ (List.mem_singleton.mpr rfl)
      · intro _
        rw [hs, hid]
  | true =>
      have hs : save_key_to_dotenv key (some ls)
          = ls.map (fun x => if is_key_line x then new_key_line key else x) := by
        simp [save_key_to_dotenv, rewrite_key_lines_eq, hany]
      refine ⟨?_, ?_, ?_, ?_, rfl⟩
      · rw [hs, filter_rewrite_map]
      · rw [hs]
        simp only [List.all_eq_true]
        intro l hl
        rcases hmem l hl with h | h
        · simp [h]
        · rw [h]; simp [is_key_line_new]
      · rw [hs]
        rcases List.any_eq_true.mp hany with ⟨a, ha, hka⟩
        exact List.mem_map.mpr ⟨a, ha, by simp [hka]⟩
      · intro hnone
        exact Bool.noConfusion hnone

/-- C10 witness: a concrete file with one unrelated line and no key line —
the unrelated line is preserved and one new key line is appended. -/
theorem C10_dotenv_rewrite_witness :
    (["FOO=1".toList].any is_key_line = false)
    ∧ (save_key_to_dotenv "abc".toList (some ["FOO=1".toList])
        = ["FOO=1".toList] ++ [new_key_line "abc".toList]) := by
  refine ⟨by decide, ?_⟩
  exact (C10_dotenv_rewrite "abc".toList ["FOO=1".toList]).2.2.2.1 (by decide)

end AutoPattern
